import Mathlib

/-!
Shallow embedding of the m913-ctl protocol codec (src/data.cpp, src/protocol.cpp).

Conventions:
* a C++ `uint8_t` / `uint16_t` / `uint32_t` is a `Nat` reduced with `% 256`,
  `% 65536`, `% 4294967296` at the places where the C++ type forces a wrap;
* a `std::string` is a `List Nat` of byte values;
* a `Packet` (`std::array<uint8_t,17>`) is a `List Nat` of length 17, built by
  the same assignments as the source (`List.set` drops out-of-range writes;
  the C++ has undefined behaviour there, noted where it matters);
* `std::map` iteration is a fold over an association list in key order; the
  theorems quantify over arbitrary association lists, which subsumes the
  sorted-unique lists a `std::map` produces.
-/

namespace M913

/-- Byte string of an ASCII literal (models the bytes of a std::string). -/
def str (s : String) : List Nat := s.data.map Char.toNat

/-- Single-byte tolower in the C locale: only A..Z (65..90) map down. -/
def lowerByte (b : Nat) : Nat := if 65 ≤ b ∧ b ≤ 90 then b + 32 else b

/-- Models data.cpp to_lower: std::tolower applied to every byte. -/
def to_lower (s : List Nat) : List Nat := s.map lowerByte

/-- Split on a delimiter byte, keeping (possibly empty) fields. -/
def splitByte (d : Nat) (s : List Nat) : List (List Nat) :=
  s.foldr (fun b acc =>
    match acc with
    | [] => [[]]
    | cur :: rest => if b = d then [] :: cur :: rest else (b :: cur) :: rest) [[]]

/-- Models data.cpp split: getline fields with empty parts skipped. -/
def splitNE (d : Nat) (s : List Nat) : List (List Nat) :=
  (splitByte d s).filter (fun p => p ≠ [])

/-- Is an ASCII decimal digit byte. -/
def isDigitByte (b : Nat) : Bool := 48 ≤ b && b ≤ 57

/-- Is an ASCII whitespace byte (the set std::stoi skips). -/
def isSpaceByte (b : Nat) : Bool :=
  b = 32 || b = 9 || b = 10 || b = 11 || b = 12 || b = 13

/-- Models std::stoi on a byte string: skip whitespace, optional sign, decimal
digits (trailing junk ignored); `none` when there is no digit or the value
falls outside the `int` range (both raise, and parse_action catches both). -/
def stoi? (s : List Nat) : Option Int :=
  let s1 := s.dropWhile isSpaceByte
  let (sign, s2) : Int × List Nat :=
    match s1 with
    | 43 :: rest => (1, rest)
    | 45 :: rest => (-1, rest)
    | _ => (1, s1)
  let digits := s2.takeWhile isDigitByte
  if digits = [] then none
  else
    let v : Nat := digits.foldl (fun acc d => acc * 10 + (d - 48)) 0
    let r : Int := sign * v
    if r < -2147483648 ∨ 2147483647 < r then none else some r

/-- First-match association-list lookup (std::map::find by exact key). -/
def lookupTable {α : Type} (t : List (List Nat × α)) (k : List Nat) : Option α :=
  (t.find? (fun e => e.1 == k)).map (fun e => e.2)

/-- The 4-byte action code (std::array<uint8_t,4> ActionBytes, data.h). -/
structure ActionBytes where
  b0 : Nat
  b1 : Nat
  b2 : Nat
  b3 : Nat
deriving DecidableEq

/-- Mouse / special function action table (data.cpp mouse_actions). -/
def mouse_actions : List (List Nat × ActionBytes) := [
  (str "left",           ⟨0x01, 0x01, 0x00, 0x53⟩),
  (str "right",          ⟨0x01, 0x02, 0x00, 0x52⟩),
  (str "middle",         ⟨0x01, 0x04, 0x00, 0x50⟩),
  (str "backward",       ⟨0x01, 0x08, 0x00, 0x4c⟩),
  (str "forward",        ⟨0x01, 0x10, 0x00, 0x44⟩),
  (str "dpi-",           ⟨0x02, 0x03, 0x00, 0x50⟩),
  (str "dpi+",           ⟨0x02, 0x02, 0x00, 0x51⟩),
  (str "dpi-cycle",      ⟨0x02, 0x01, 0x00, 0x52⟩),
  (str "dpi-loop",       ⟨0x02, 0x01, 0x00, 0x52⟩),
  (str "led_toggle",     ⟨0x08, 0x00, 0x00, 0x4d⟩),
  (str "rgb_toggle",     ⟨0x08, 0x00, 0x00, 0x4d⟩),
  (str "none",           ⟨0x00, 0x00, 0x00, 0x55⟩),
  (str "disable",        ⟨0x00, 0x00, 0x00, 0x55⟩),
  (str "fire",           ⟨0x04, 0x3a, 0x03, 0x14⟩),
  (str "three_click",    ⟨0x04, 0x32, 0x03, 0x1c⟩),
  (str "polling_switch", ⟨0x07, 0x00, 0x00, 0x4e⟩),
  (str "media_play",     ⟨0x92, 0x00, 0xcd, 0x00⟩),
  (str "media_player",   ⟨0x92, 0x01, 0x83, 0x01⟩),
  (str "media_next",     ⟨0x92, 0x00, 0xb5, 0x00⟩),
  (str "media_prev",     ⟨0x92, 0x00, 0xb6, 0x00⟩),
  (str "media_stop",     ⟨0x92, 0x00, 0xb7, 0x00⟩),
  (str "media_vol_up",   ⟨0x92, 0x00, 0xe9, 0x00⟩),
  (str "media_vol_down", ⟨0x92, 0x00, 0xea, 0x00⟩),
  (str "media_mute",     ⟨0x92, 0x00, 0xe2, 0x00⟩),
  (str "media_email",    ⟨0x92, 0x01, 0x8a, 0x01⟩),
  (str "media_calc",     ⟨0x92, 0x01, 0x92, 0x01⟩),
  (str "media_computer", ⟨0x92, 0x01, 0x94, 0x01⟩),
  (str "media_home",     ⟨0x92, 0x02, 0x23, 0x02⟩),
  (str "media_search",   ⟨0x92, 0x02, 0x21, 0x02⟩),
  (str "www_forward",    ⟨0x92, 0x02, 0x25, 0x02⟩),
  (str "www_back",       ⟨0x92, 0x02, 0x24, 0x02⟩),
  (str "www_stop",       ⟨0x92, 0x02, 0x26, 0x02⟩),
  (str "www_refresh",    ⟨0x92, 0x02, 0x27, 0x02⟩),
  (str "www_favorites",  ⟨0x92, 0x02, 0x2a, 0x02⟩),
  (str "favorites",      ⟨0x92, 0x02, 0x2a, 0x02⟩)]

/-- Keyboard modifier bit flags (data.cpp modifier_bits). -/
def modifier_bits : List (List Nat × Nat) := [
  (str "ctrl_l",  0x01),
  (str "shift_l", 0x02),
  (str "alt_l",   0x04),
  (str "super_l", 0x08),
  (str "meta_l",  0x08),
  (str "ctrl_r",  0x10),
  (str "shift_r", 0x20),
  (str "alt_r",   0x40),
  (str "super_r", 0x80),
  (str "meta_r",  0x80),
  (str "ctrl",    0x01),
  (str "shift",   0x02),
  (str "alt",     0x04),
  (str "super",   0x08),
  (str "meta",    0x08)]

/-- Keyboard key USB HID usage codes (data.cpp key_codes). -/
def key_codes : List (List Nat × Nat) := [
  (str "a", 0x04), (str "b", 0x05), (str "c", 0x06), (str "d", 0x07),
  (str "e", 0x08), (str "f", 0x09), (str "g", 0x0a), (str "h", 0x0b),
  (str "i", 0x0c), (str "j", 0x0d), (str "k", 0x0e), (str "l", 0x0f),
  (str "m", 0x10), (str "n", 0x11), (str "o", 0x12), (str "p", 0x13),
  (str "q", 0x14), (str "r", 0x15), (str "s", 0x16), (str "t", 0x17),
  (str "u", 0x18), (str "v", 0x19), (str "w", 0x1a), (str "x", 0x1b),
  (str "y", 0x1c), (str "z", 0x1d),
  (str "1", 0x1e), (str "2", 0x1f), (str "3", 0x20), (str "4", 0x21),
  (str "5", 0x22), (str "6", 0x23), (str "7", 0x24), (str "8", 0x25),
  (str "9", 0x26), (str "0", 0x27),
  (str "enter",     0x28), (str "return",    0x28),
  (str "escape",    0x29), (str "esc",       0x29),
  (str "backspace", 0x2a),
  (str "tab",       0x2b),
  (str "space",     0x2c),
  (str "minus",     0x2d), (str "-",         0x2d),
  (str "equal",     0x2e), (str "=",         0x2e),
  (str "lbracket",  0x2f), (str "[",         0x2f),
  (str "rbracket",  0x30), (str "]",         0x30),
  (str "backslash", 0x31), (str "\\",        0x31),
  (str "semicolon", 0x33), (str ";",         0x33),
  (str "quote",     0x34), ([39],             0x34),  -- 39 = the single-quote byte
  (str "grave",     0x35), ([96],             0x35),  -- 96 = the backquote byte
  (str "comma",     0x36), (str ",",         0x36),
  (str "dot",       0x37), (str ".",         0x37),
  (str "slash",     0x38), (str "/",         0x38),
  (str "capslock",  0x39),
  (str "f1", 0x3a), (str "f2", 0x3b), (str "f3", 0x3c), (str "f4", 0x3d),
  (str "f5", 0x3e), (str "f6", 0x3f), (str "f7", 0x40), (str "f8", 0x41),
  (str "f9", 0x42), (str "f10", 0x43), (str "f11", 0x44), (str "f12", 0x45),
  (str "f13", 0x68), (str "f14", 0x69), (str "f15", 0x6a), (str "f16", 0x6b),
  (str "f17", 0x6c), (str "f18", 0x6d), (str "f19", 0x6e), (str "f20", 0x6f),
  (str "f21", 0x70), (str "f22", 0x71), (str "f23", 0x72), (str "f24", 0x73),
  (str "printscreen", 0x46),
  (str "scrolllock",  0x47),
  (str "pause",       0x48),
  (str "insert",      0x49),
  (str "home",        0x4a),
  (str "pageup",      0x4b),
  (str "delete",      0x4c),
  (str "end",         0x4d),
  (str "pagedown",    0x4e),
  (str "right",       0x4f),
  (str "left",        0x50),
  (str "down",        0x51),
  (str "up",          0x52),
  (str "num0", 0x62), (str "num1", 0x59), (str "num2", 0x5a), (str "num3", 0x5b),
  (str "num4", 0x5c), (str "num5", 0x5d), (str "num6", 0x5e), (str "num7", 0x5f),
  (str "num8", 0x60), (str "num9", 0x61),
  (str "numenter", 0x58), (str "numdot", 0x63),
  (str "numplus",  0x57), (str "numminus", 0x56),
  (str "nummul",   0x55), (str "numdiv",   0x54),
  (str "numlock",  0x53)]

/-- One iteration of the modifier/key token loop of parse_action and
parse_multikey: or a modifier bit in or append a key code; `none` once a
token was neither (the C++ returns false there). -/
def collect_step (acc : Option (Nat × List Nat)) (part : List Nat) :
    Option (Nat × List Nat) :=
  match acc with
  | none => none
  | some (mods, keys) =>
    match lookupTable modifier_bits part with
    | some m => some (mods ||| m, keys)
    | none =>
      match lookupTable key_codes part with
      | some k => some (mods, keys ++ [k])
      | none => none

/-- The modifier/key token loop of parse_action and parse_multikey. -/
def collect_tokens (parts : List (List Nat)) : Option (Nat × List Nat) :=
  parts.foldl collect_step (some (0, []))

/-- Models data.cpp parse_action (bool out-param style becomes Option). -/
def parse_action (s : List Nat) : Option ActionBytes :=
  let action := to_lower s
  if action.take 5 = str "fire:" then
    match splitNE 58 action with
    | [_, p1, p2] =>
      match stoi? p1, stoi? p2 with
      | some speed, some times =>
        if 3 ≤ speed ∧ speed ≤ 255 ∧ 0 ≤ times ∧ times ≤ 3 then
          -- (0x55u - (0x04u + speed + times)) & 0xFF with speed ≤ 255, times ≤ 3
          some ⟨0x04, speed.toNat, times.toNat,
                (0x55 + 512 - (0x04 + speed.toNat + times.toNat)) % 256⟩
        else none
      | _, _ => none
    | _ => none
  else
    match lookupTable mouse_actions action with
    | some v => some v
    | none =>
      let parts := splitNE 43 action
      if parts = [] then none
      else
        match collect_tokens parts with
        | none => none
        | some (mods, keys) =>
          match keys with
          | [] => some ⟨0x90, mods, 0x00, 0x00⟩
          | [k] => some ⟨0x90, mods, k, 0x00⟩
          | _ =>
            if 255 < keys.length then none
            else some ⟨0x90, mods, keys.headD 0, keys.length⟩

/-- Models data.cpp parse_multikey (mods/keys out-params become a pair). -/
def parse_multikey (s : List Nat) : Option (Nat × List Nat) :=
  let parts := splitNE 43 (to_lower s)
  if parts = [] then none else collect_tokens parts

/-- Host-to-device checksum (protocol.cpp compute_checksum): the running sum is
a uint16_t, and the C `(0x55 - s) & 0xFF` on the promoted int is the value
`0x55 - s` modulo 256, written here with the wrap made explicit. -/
def compute_checksum (p : List Nat) : Nat :=
  (0x55 + 0x10000 - (p.take 16).sum % 0x10000) % 256

/-- The `p[16] = compute_checksum(p)` assignment every builder performs last. -/
def finalize (p : List Nat) : List Nat := p.set 16 (compute_checksum p)

/-- Models `(0x55u - x) & 0xFF` for a uint8_t value x (inline field checksums). -/
def sub55 (x : Nat) : Nat := (0x55 + 256 - x % 256) % 256

/-- Default button-mapping packets, 8 x 17 bytes (protocol.cpp). -/
def default_button_mapping : List (List Nat) := [
  [0x08,0x07,0x00,0x00,0x60,0x08, 0x00,0x00,0x00,0x55, 0x05,0x00,0x00,0x50, 0x00,0x00,0x34],
  [0x08,0x07,0x00,0x00,0x68,0x08, 0x05,0x00,0x00,0x50, 0x01,0x08,0x00,0x4c, 0x00,0x00,0x2c],
  [0x08,0x07,0x00,0x00,0x70,0x08, 0x05,0x00,0x00,0x50, 0x05,0x00,0x00,0x50, 0x00,0x00,0x24],
  [0x08,0x07,0x00,0x00,0x78,0x08, 0x01,0x02,0x00,0x52, 0x01,0x01,0x00,0x53, 0x00,0x00,0x1c],
  [0x08,0x07,0x00,0x00,0x80,0x08, 0x05,0x00,0x00,0x50, 0x05,0x00,0x00,0x50, 0x00,0x00,0x14],
  [0x08,0x07,0x00,0x00,0x88,0x08, 0x01,0x04,0x00,0x50, 0x04,0x3a,0x03,0x14, 0x00,0x00,0x0c],
  [0x08,0x07,0x00,0x00,0x90,0x08, 0x05,0x00,0x00,0x50, 0x05,0x00,0x00,0x50, 0x00,0x00,0x04],
  [0x08,0x07,0x00,0x00,0x98,0x08, 0x05,0x00,0x00,0x50, 0x05,0x00,0x00,0x50, 0x00,0x00,0xfc]]

/-- Per-button address bytes for keyboard-key sub-packets (protocol.cpp). -/
def kb_key_addr : List (Nat × Nat) := [
  (0x01,0x00), (0x01,0x20), (0x01,0x40), (0x01,0x60),
  (0x01,0x80), (0x01,0xa0), (0x01,0xc0), (0x01,0xe0),
  (0x02,0x00), (0x02,0x20), (0x02,0x40), (0x02,0x60),
  (0x02,0x80), (0x02,0xa0), (0x02,0xc0), (0x02,0xe0)]

/-- DPI code lookup table, value to 3-byte encoding (protocol.cpp dpi_table). -/
def dpi_table : List (Nat × (Nat × Nat × Nat)) := [
  (  100, (0x00,0x00,0x55)), (  200, (0x02,0x02,0x51)), (  300, (0x03,0x03,0x4f)),
  (  400, (0x04,0x04,0x4d)), (  500, (0x05,0x05,0x4b)), (  600, (0x06,0x06,0x49)),
  (  700, (0x07,0x07,0x47)), (  800, (0x09,0x09,0x43)), (  900, (0x0a,0x0a,0x41)),
  ( 1000, (0x0b,0x0b,0x3f)), ( 1100, (0x0c,0x0c,0x3d)), ( 1200, (0x0d,0x0d,0x3b)),
  ( 1300, (0x0e,0x0e,0x39)), ( 1400, (0x10,0x10,0x35)), ( 1500, (0x11,0x11,0x33)),
  ( 1600, (0x12,0x12,0x31)), ( 1700, (0x13,0x13,0x2f)), ( 1800, (0x14,0x14,0x2d)),
  ( 1900, (0x16,0x16,0x29)), ( 2000, (0x17,0x17,0x27)), ( 2100, (0x18,0x18,0x25)),
  ( 2200, (0x19,0x19,0x23)), ( 2300, (0x1a,0x1a,0x21)), ( 2400, (0x1b,0x1b,0x1f)),
  ( 2500, (0x1d,0x1d,0x1b)), ( 2600, (0x1e,0x1e,0x19)), ( 2700, (0x1f,0x1f,0x17)),
  ( 2800, (0x20,0x20,0x15)), ( 2900, (0x21,0x21,0x13)), ( 3000, (0x23,0x23,0x0f)),
  ( 3200, (0x26,0x26,0x09)), ( 3600, (0x2a,0x2a,0x01)), ( 4000, (0x2f,0x2f,0xf7)),
  ( 4800, (0x39,0x39,0xe3)), ( 5000, (0x3b,0x3b,0xdf)), ( 5500, (0x41,0x41,0xd3)),
  ( 6000, (0x47,0x47,0xc7)), ( 6400, (0x4c,0x4c,0xbd)), ( 6600, (0x4f,0x4f,0xb7)),
  ( 7000, (0x53,0x53,0xaf)), ( 7200, (0x56,0x56,0xa9)), ( 7300, (0x57,0x57,0xa7)),
  ( 7400, (0x58,0x58,0xa5)), ( 7500, (0x59,0x59,0xa3)), ( 8000, (0x5f,0x5f,0x97)),
  ( 8500, (0x65,0x65,0x8b)), ( 9000, (0x6b,0x6b,0x7f)), ( 9600, (0x73,0x73,0x6f)),
  (10000, (0x77,0x77,0x67)), (11000, (0x83,0x83,0x4f)), (12000, (0x8f,0x8f,0x37)),
  (13000, (0x9b,0x9b,0x1f)), (14000, (0xa7,0xa7,0x07)), (15000, (0xb3,0xb3,0xef)),
  (16000, (0xbd,0xbd,0xdb))]

/-- First-match DPI code lookup (protocol.cpp lookup_dpi). -/
def lookup_dpi (dpi : Nat) : Option (Nat × Nat × Nat) :=
  (dpi_table.find? (fun e => e.1 == dpi)).map (fun e => e.2)

/-- Keyboard-key sub-packet template (protocol.cpp kb_key_template). -/
def kb_key_template : List Nat :=
  [0x08,0x07,0x00,0x01,0x60,0x08,
   0x02,0x81,0x21,0x00,0x41,0x21,0x00,0x4f,
   0x00,0x00,0x88]

/-- DPI config packet templates, 4 packets (protocol.cpp dpi_template). -/
def dpi_template : List (List Nat) := [
  [0x08,0x07,0x00,0x00,0x0c,0x08, 0x00,0x00,0x00,0x55, 0x02,0x02,0x00,0x51, 0x00,0x00,0x88],
  [0x08,0x07,0x00,0x00,0x14,0x08, 0x03,0x03,0x00,0x4f, 0x04,0x04,0x00,0x4d, 0x00,0x00,0x80],
  [0x08,0x07,0x00,0x00,0x1c,0x04, 0x05,0x05,0x00,0x4b, 0x00,0x00,0x00,0x00, 0x00,0x00,0xd1],
  [0x08,0x07,0x00,0x00,0x02,0x02, 0x05,0x50,0x00,0x00, 0x00,0x00,0x00,0x00, 0x00,0x00,0xed]]

/-- The 3 "unknown_2" packets always sent after DPI config (protocol.cpp). -/
def unknown2 : List (List Nat) := [
  [0x08,0x07,0x00,0x00,0x2c,0x08, 0xff,0x00,0x00,0x56, 0x00,0x00,0xff,0x56, 0x00,0x00,0x68],
  [0x08,0x07,0x00,0x00,0x34,0x08, 0x00,0xff,0x00,0x56, 0xff,0xff,0x00,0x57, 0x00,0x00,0x60],
  [0x08,0x07,0x00,0x00,0x3c,0x04, 0xff,0x55,0x7d,0x84, 0x00,0x00,0x00,0x00, 0x00,0x00,0xb1]]

/-- LED mode packet templates (protocol.cpp led_off / led_breathing / led_rainbow / led_static). -/
def led_off0 : List Nat :=
  [0x08,0x07,0x00,0x00,0x58,0x02, 0x00,0x55,0x00,0x00, 0x00,0x00,0x00,0x00, 0x00,0x00,0x97]

/-- First breathing-mode template packet. -/
def led_breathing0 : List Nat :=
  [0x08,0x07,0x00,0x00,0x54,0x08, 0xff,0x00,0x00,0x57, 0x01,0x54,0xff,0x56, 0x00,0x00,0xeb]

/-- Second breathing-mode template packet (speed register). -/
def led_breathing1 : List Nat :=
  [0x08,0x07,0x00,0x00,0x5c,0x02, 0x03,0x52,0x00,0x00, 0x00,0x00,0x00,0x00, 0x00,0x00,0x93]

/-- First rainbow-mode template packet. -/
def led_rainbow0 : List Nat :=
  [0x08,0x07,0x00,0x00,0x54,0x08, 0xff,0x00,0xff,0x57, 0x03,0x52,0x80,0xd5, 0x00,0x00,0xeb]

/-- Second rainbow-mode template packet. -/
def led_rainbow1 : List Nat :=
  [0x08,0x07,0x00,0x00,0x5c,0x02, 0x03,0x52,0x00,0x00, 0x00,0x00,0x00,0x00, 0x00,0x00,0x93]

/-- Static-color template packet. -/
def led_static0 : List Nat :=
  [0x08,0x07,0x00,0x00,0x54,0x08, 0xff,0x00,0x00,0x57, 0x01,0x54,0xff,0x56, 0x00,0x00,0xeb]

/-- Mapping-slot marker for keyboard-delegated buttons (kb_key_action). -/
def kb_key_action : ActionBytes := ⟨0x05, 0x00, 0x00, 0x50⟩

/-- The modifier bits scanned in fixed order, bit 0 first (mod_bits). -/
def mod_bits : List Nat := [0x01, 0x02, 0x04, 0x08, 0x10, 0x20, 0x40, 0x80]

/-- Event-list construction in build_button_mapping for combination actions:
the four push_back loops of protocol.cpp lines 311-327, in source order. -/
def buildEvents (mods : Nat) (keys : List Nat) : List Nat :=
  let e1 := mod_bits.foldl
    (fun acc b => if mods &&& b ≠ 0 then acc ++ [0x80, b, 0x00] else acc) []
  let e2 := keys.foldl (fun acc k => acc ++ [0x81, k, 0x00]) e1
  let e3 := mod_bits.foldl
    (fun acc b => if mods &&& b ≠ 0 then acc ++ [0x40, b, 0x00] else acc) e2
  keys.reverse.foldl (fun acc k => acc ++ [0x41, k, 0x00]) e3

/-- Left-pad-free fixed-width copy: the first n bytes of l into a zero-filled
n-byte window (how a loop copies into a zero-initialized array region). -/
def takePad (n : Nat) (l : List Nat) : List Nat :=
  l.take n ++ List.replicate (n - l.length) 0

/-- The two sub-packets of the combination path (protocol.cpp lines 329-357).
For event lists of more than 18 bytes the C++ writes past the end of the
17-byte array (undefined behaviour); here those writes are truncated. -/
def comboSubs (hi lo mods : Nat) (keys : List Nat) : List (List Nat) :=
  let evts := buildEvents mods keys
  let count := (evts.length / 3) % 256
  let isum := (count + evts.sum) % 0x10000
  let inner := sub55 isum
  let p1 := finalize ([0x08, 0x07, 0x00, hi, lo, 0x0a, count] ++ takePad 9 evts ++ [0x00])
  let rest := evts.drop 9
  let p2 := finalize ([0x08, 0x07, 0x00, hi, (lo + 0x0a) % 256, (rest.length + 1) % 256]
      ++ takePad 10 (rest ++ [inner]) ++ [0x00])
  [p1, p2]

/-- Single plain-key sub-packet (protocol.cpp lines 289-299). -/
def kb_single (hi lo k : Nat) : List Nat :=
  finalize (((((kb_key_template.set 3 hi).set 4 lo).set 8 k).set 11 k).set 13
    ((0x91 + 0x200 - 2 * (k % 256)) % 256))

/-- Multimedia sub-packet (protocol.cpp lines 246-260). -/
def mm_sub (hi lo extra code extra2 : Nat) : List Nat :=
  finalize [0x08, 0x07, 0x00, hi, lo, 0x08,
    0x02, 0x82, code, extra, 0x42, code, extra2,
    sub55 (0x02 + 0x82 + code + extra + 0x42 + code + extra2),
    0x00, 0x00, 0x00]

/-- Write a 4-byte action code into a mapping packet slot (the k < 4 loop). -/
def write4 (row : List Nat) (off : Nat) (ab : ActionBytes) : List Nat :=
  (((row.set off ab.b0).set (off + 1) ab.b1).set (off + 2) ab.b2).set (off + 3) ab.b3

/-- One iteration of the build_button_mapping loop over `changes`: state is
(the 8 mapping packets, the collected sub-packets); reg is the multi-key
action registry (g_multikey_actions) passed explicitly. -/
def bm_step (reg : List (Nat × List Nat)) (st : List (List Nat) × List (List Nat))
    (entry : Nat × ActionBytes) : List (List Nat) × List (List Nat) :=
  let buf := st.1
  let result := st.2
  let btn := entry.1
  let ab := entry.2
  if 16 ≤ btn then st
  else if ab.b0 = 0x90 ∨ ab.b0 = 0x92 then
    let hi := (kb_key_addr.getD btn (0, 0)).1
    let lo := (kb_key_addr.getD btn (0, 0)).2
    let subs :=
      if ab.b0 = 0x92 then [mm_sub hi lo ab.b1 ab.b2 ab.b3]
      else
        let mk : Option (Nat × List Nat) :=
          if 1 < ab.b3 then
            match reg.lookup btn with
            | some s =>
              match parse_multikey s with
              | some (pm, pk) => if 2 ≤ pk.length then some (pm, pk) else none
              | none => none
            | none => none
          else none
        let mods := match mk with | some (pm, _) => pm | none => ab.b1
        let keys := match mk with
          | some (_, pk) => pk
          | none => if 1 < ab.b3 then [ab.b2] else if ab.b2 ≠ 0 then [ab.b2] else []
        if mods = 0 ∧ keys.length = 1 then [kb_single hi lo (keys.headD 0)]
        else comboSubs hi lo mods keys
    let pkt := btn / 2
    let off := if btn % 2 = 0 then 6 else 10
    (buf.set pkt (write4 (buf.getD pkt []) off kb_key_action), result ++ subs)
  else
    let pkt := btn / 2
    let off := if btn % 2 = 0 then 6 else 10
    (buf.set pkt (write4 (buf.getD pkt []) off ab), result)

/-- Models the uint8_t key and value types of std::map<uint8_t, ActionBytes>. -/
def normChanges (changes : List (Nat × ActionBytes)) : List (Nat × ActionBytes) :=
  changes.map (fun e => (e.1 % 256, ⟨e.2.b0 % 256, e.2.b1 % 256, e.2.b2 % 256, e.2.b3 % 256⟩))

/-- Models protocol.cpp build_button_mapping; reg is the global multi-key
registry (g_multikey_actions) made an explicit argument. -/
def build_button_mapping (reg : List (Nat × List Nat))
    (changes : List (Nat × ActionBytes)) : List (List Nat) :=
  let st := (normChanges changes).foldl (bm_step reg) (default_button_mapping, [])
  st.2 ++ st.1.map finalize

/-- build_button_mapping together with its side effect on the registry: the
function clears g_multikey_actions before returning, so the post-state of the
registry is always empty. -/
def build_button_mapping_st (reg : List (Nat × List Nat))
    (changes : List (Nat × ActionBytes)) : List (List Nat) × List (Nat × List Nat) :=
  (build_button_mapping reg changes, [])

/-- DPI settings (protocol.h DpiSettings): 5 values, 5 enable flags. -/
structure DpiSettings where
  values : Fin 5 → Nat
  enabled : Fin 5 → Bool

/-- Set one DPI level's 3 bytes (the set_level lambda in build_dpi_packets);
the unmatched-value case keeps the template bytes. -/
def set_level (p : List Nat) (off v : Nat) : List Nat :=
  match lookup_dpi v with
  | none => p
  | some (c0, c1, c2) => ((p.set off c0).set (off + 1) c1).set (off + 3) c2

/-- Models protocol.cpp build_dpi_packets. -/
def build_dpi_packets (dpi : DpiSettings) : List (List Nat) :=
  let v : Fin 5 → Nat := fun i => dpi.values i % 0x10000
  let b0 := dpi_template.getD 0 []
  let b0 := if v 0 ≠ 0 then set_level b0 6 (v 0) else b0
  let b0 := if v 1 ≠ 0 then set_level b0 10 (v 1) else b0
  let b1 := dpi_template.getD 1 []
  let b1 := if v 2 ≠ 0 then set_level b1 6 (v 2) else b1
  let b1 := if v 3 ≠ 0 then set_level b1 10 (v 3) else b1
  let b2 := dpi_template.getD 2 []
  let b2 := if v 4 ≠ 0 then set_level b2 6 (v 4) else b2
  -- the counting loop of protocol.cpp lines 421-422
  let num_enabled :=
    (if dpi.enabled 0 then 1 else 0) + (if dpi.enabled 1 then 1 else 0) +
    (if dpi.enabled 2 then 1 else 0) + (if dpi.enabled 3 then 1 else 0) +
    (if dpi.enabled 4 then 1 else 0)
  let b3 := dpi_template.getD 3 []
  let b3 :=
    if num_enabled = 0 then b3
    else
      -- the cascade of protocol.cpp lines 426-430: later writes win
      let e : Nat × Nat := (0x05, 0x50)
      let e := if dpi.enabled 4 = false then (0x04, 0x51) else e
      let e := if dpi.enabled 3 = false then (0x03, 0x52) else e
      let e := if dpi.enabled 2 = false then (0x02, 0x53) else e
      let e := if dpi.enabled 1 = false then (0x01, 0x54) else e
      (b3.set 6 e.1).set 7 e.2
  [finalize b0, finalize b1, finalize b2, finalize b3] ++ unknown2

/-- LED modes (protocol.h LedMode). -/
inductive LedMode where
  | Off
  | Steady
  | Respiration
  | Rainbow
deriving DecidableEq

/-- Models protocol.cpp build_led_packets (color is uint32_t, brightness and
speed are uint8_t). -/
def build_led_packets (mode : LedMode) (color brightness speed : Nat) : List (List Nat) :=
  let c := color % 0x100000000
  let r := (c >>> 16) % 256
  let g := (c >>> 8) % 256
  let b := c % 256
  let bright := brightness % 256
  let spd := speed % 256
  match mode with
  | .Off => [led_off0]
  | .Respiration =>
    let p1 := finalize ((((((((led_breathing0.set 6 r).set 7 g).set 8 b).set 9
        ((0x55 + 768 - (r + g + b)) % 256)).set 10 0x02).set 11
        (sub55 0x02)).set 12 bright).set 13 (sub55 bright))
    let p2 := finalize ((led_breathing1.set 6 spd).set 7 (sub55 spd))
    [p1, p2]
  | .Rainbow => [led_rainbow0, led_rainbow1]
  | .Steady =>
    [finalize ((((((((led_static0.set 6 r).set 7 g).set 8 b).set 9
        ((0x55 + 768 - (r + g + b)) % 256)).set 10 0x01).set 11
        (sub55 0x01)).set 12 bright).set 13 (sub55 bright))]

/-- The floor rule mapping a polling rate in Hz to its hardware code. -/
def pollingCode (hz : Nat) : Nat :=
  let h := hz % 0x10000
  if 1000 ≤ h then 0x01 else if 500 ≤ h then 0x02 else if 250 ≤ h then 0x04 else 0x08

/-- Models protocol.cpp build_polling_rate_packet (hz is uint16_t). -/
def build_polling_rate_packet (hz : Nat) : List Nat :=
  let code := pollingCode hz
  finalize ([0x08, 0x07, 0x00, 0x00, 0x00, 0x02, code, sub55 code]
    ++ List.replicate 8 0 ++ [0x00])

/-- The enable byte-pair rule as amended: derived from the LOWEST-numbered
disabled level among levels 2-5 (the cascade of protocol.cpp lines 426-430 is
last-write-wins, so a lower disabled level overrides a higher one); if every
level is disabled the template default pair (0x05, 0x50) is kept. -/
def enablePairSpec (en : Fin 5 → Bool) : Nat × Nat :=
  if en 0 = false ∧ en 1 = false ∧ en 2 = false ∧ en 3 = false ∧ en 4 = false then
    (0x05, 0x50)
  else if en 1 = false then (0x01, 0x54)
  else if en 2 = false then (0x02, 0x53)
  else if en 3 = false then (0x03, 0x52)
  else if en 4 = false then (0x04, 0x51)
  else (0x05, 0x50)

/-- The exact-match contract of one DPI slot i living in packet pk at base
offset off (code bytes at off, off+1 and off+3): a configured value with a
table entry writes the 3-byte hardware code; a value without an entry (or an
unconfigured slot) leaves the template bytes of that window unmodified. -/
def slotOK (dpi : DpiSettings) (i : Fin 5) (pk off : Nat) : Prop :=
  (∀ c0 c1 c2, dpi.values i % 0x10000 ≠ 0 →
    lookup_dpi (dpi.values i % 0x10000) = some (c0, c1, c2) →
    ((build_dpi_packets dpi).getD pk [])[off]? = some c0 ∧
    ((build_dpi_packets dpi).getD pk [])[off + 1]? = some c1 ∧
    ((build_dpi_packets dpi).getD pk [])[off + 3]? = some c2) ∧
  ((dpi.values i % 0x10000 = 0 ∨ lookup_dpi (dpi.values i % 0x10000) = none) →
    ((build_dpi_packets dpi).getD pk [])[off]? = (dpi_template.getD pk [])[off]? ∧
    ((build_dpi_packets dpi).getD pk [])[off + 1]? = (dpi_template.getD pk [])[off + 1]? ∧
    ((build_dpi_packets dpi).getD pk [])[off + 3]? = (dpi_template.getD pk [])[off + 3]?)

/-- The packet well-formedness the protocol demands of every host packet:
17 bytes, total byte sum congruent to 0x55 mod 256, and the checksum byte
equal to compute_checksum of the packet. -/
def goodPacket (p : List Nat) : Prop :=
  p.length = 17 ∧ p.sum % 256 = 0x55 ∧ p[16]? = some (compute_checksum p)

instance (p : List Nat) : Decidable (goodPacket p) := by
  unfold goodPacket; infer_instance

/-- Setting index 16 of a 17-byte list replaces its last element. -/
theorem aux_set_sixteen (p : List Nat) (c : Nat) (h : p.length = 17) :
    p.set 16 c = p.take 16 ++ [c] := by
  rw [List.set_eq_take_append_cons_drop]
  have hd : p.drop 17 = [] := List.drop_eq_nil_of_le (by omega)
  simp [h, hd]

/-- The checksum only reads the first 16 bytes. -/
theorem aux_checksum_take (p q : List Nat) (h : p.take 16 = q.take 16) :
    compute_checksum p = compute_checksum q := by
  unfold compute_checksum; rw [h]

/-- Finalizing any 17-byte buffer yields a well-formed packet. -/
theorem aux_goodPacket_finalize (p : List Nat) (h : p.length = 17) :
    goodPacket (finalize p) := by
  have hlen16 : (p.take 16).length = 16 := by
    simp [List.length_take, h]
  have hspec : finalize p = p.take 16 ++ [compute_checksum p] :=
    aux_set_sixteen p (compute_checksum p) h
  have htake : (finalize p).take 16 = p.take 16 := by
    rw [hspec]
    calc (p.take 16 ++ [compute_checksum p]).take 16
        = (p.take 16 ++ [compute_checksum p]).take (p.take 16).length := by rw [hlen16]
      _ = p.take 16 := List.take_left _ _
  have hck : compute_checksum (finalize p) = compute_checksum p := by
    unfold compute_checksum; rw [htake]
  refine ⟨?_, ?_, ?_⟩
  · simp [finalize, List.length_set, h]
  · rw [hspec, List.sum_append]
    unfold compute_checksum
    set s := (p.take 16).sum with hs
    simp only [List.sum_cons, List.sum_nil]
    omega
  · rw [hck, hspec, List.getElem?_append_right (by omega)]
    simp [hlen16]

/-- takePad always produces exactly n bytes. -/
theorem aux_takePad_length (n : Nat) (l : List Nat) : (takePad n l).length = n := by
  simp [takePad, List.length_take, List.length_replicate]
  omega

/-- set_level preserves length. -/
theorem aux_set_level_length (p : List Nat) (off v : Nat) :
    (set_level p off v).length = p.length := by
  unfold set_level
  cases lookup_dpi v with
  | none => rfl
  | some c => obtain ⟨c0, c1, c2⟩ := c; simp [List.length_set]

/-- write4 preserves length. -/
theorem aux_write4_length (row : List Nat) (off : Nat) (ab : ActionBytes) :
    (write4 row off ab).length = row.length := by
  simp [write4, List.length_set]

/-- Appending through a foldl of appends. -/
theorem aux_foldl_append {α : Type} (g : α → List Nat) :
    ∀ (l : List α) (acc : List Nat),
      l.foldl (fun a x => a ++ g x) acc = acc ++ l.flatMap g := by
  intro l
  induction l with
  | nil => intro acc; simp
  | cons x xs ih => intro acc; simp [List.foldl_cons, ih, List.flatMap_cons]

/-- Appending through a guarded foldl of appends. -/
theorem aux_foldl_filter_append {α : Type} (p : α → Prop) [DecidablePred p]
    (g : α → List Nat) :
    ∀ (l : List α) (acc : List Nat),
      l.foldl (fun a x => if p x then a ++ g x else a) acc
        = acc ++ (l.filter (fun x => decide (p x))).flatMap g := by
  intro l
  induction l with
  | nil => intro acc; simp
  | cons x xs ih =>
    intro acc
    by_cases hx : p x
    · simp [List.foldl_cons, hx, ih, List.flatMap_cons]
    · simp [List.foldl_cons, hx, ih]

/-- C2. For every keyboard action with modifiers and/or two or more keys, the
builder's event list is exactly: modifier down-events (type 0x80) in fixed
bit order starting at bit 0, then key down-events (type 0x81) in
specification order, then modifier up-events (type 0x40) in the same bit
order, then key up-events (type 0x41) in reverse specification order; in
particular for keys a, b, c with no modifiers the down-events are a, b, c
and the up-events are c, b, a. -/
theorem c2_event_ordering :
    (∀ (mods : Nat) (keys : List Nat),
      buildEvents mods keys =
        (mod_bits.filter (fun b => decide (mods &&& b ≠ 0))).flatMap
            (fun b => [0x80, b, 0x00])
          ++ keys.flatMap (fun k => [0x81, k, 0x00])
          ++ (mod_bits.filter (fun b => decide (mods &&& b ≠ 0))).flatMap
              (fun b => [0x40, b, 0x00])
          ++ keys.reverse.flatMap (fun k => [0x41, k, 0x00])) ∧
    buildEvents 0 [0x04, 0x05, 0x06] =
      [0x81, 0x04, 0x00, 0x81, 0x05, 0x00, 0x81, 0x06, 0x00,
       0x41, 0x06, 0x00, 0x41, 0x05, 0x00, 0x41, 0x04, 0x00] := by
  constructor
  · intro mods keys
    unfold buildEvents
    simp only [aux_foldl_filter_append (fun b => mods &&& b ≠ 0) (fun b => [0x80, b, 0x00]),
      aux_foldl_filter_append (fun b => mods &&& b ≠ 0) (fun b => [0x40, b, 0x00]),
      aux_foldl_append (fun k => [0x81, k, 0x00]),
      aux_foldl_append (fun k => [0x41, k, 0x00])]
    simp [List.append_assoc]
  · decide

/-- C5. parse_action resolves the mouse literal "left" to 01 01 00 53 and the
parametrized "fire:50:2" to 04 32 02 1D, the last byte being
(0x55 - (0x04 + speed + repeat)) mod 256. -/
theorem c5_parse_literals :
    parse_action (str "left") = some ⟨0x01, 0x01, 0x00, 0x53⟩ ∧
    parse_action (str "fire:50:2") = some ⟨0x04, 50, 2, 0x1D⟩ := by
  decide

/-- C9. Building the button mapping with zero overrides reproduces the fixed
factory-default 8-packet sequence byte-for-byte, whatever the multi-key
registry holds: recomputing each template checksum reproduces the stored
checksum byte. -/
theorem c9_default_mapping (reg : List (Nat × List Nat)) :
    build_button_mapping reg [] = default_button_mapping := by
  rfl

/-- C8. build_polling_rate_packet maps Hz by the floor rule (on the uint16_t
value of hz) to the codes 0x01 / 0x02 / 0x04 / 0x08, the byte adjacent to
the code is always its 0x55-complement sub55, and for 1000 Hz the complement
byte is 0x54 and the full-packet checksum byte 0xEF. -/
theorem c8_polling_rate (hz : Nat) :
    (build_polling_rate_packet hz).length = 17 ∧
    (build_polling_rate_packet hz)[6]? = some (pollingCode hz) ∧
    (build_polling_rate_packet hz)[7]? = some (sub55 (pollingCode hz)) ∧
    (1000 ≤ hz % 0x10000 → pollingCode hz = 0x01) ∧
    (500 ≤ hz % 0x10000 ∧ hz % 0x10000 < 1000 → pollingCode hz = 0x02) ∧
    (250 ≤ hz % 0x10000 ∧ hz % 0x10000 < 500 → pollingCode hz = 0x04) ∧
    (hz % 0x10000 < 250 → pollingCode hz = 0x08) ∧
    (build_polling_rate_packet 1000)[7]? = some 0x54 ∧
    (build_polling_rate_packet 1000)[16]? = some 0xEF := by
  have hcase : pollingCode hz = 0x01 ∨ pollingCode hz = 0x02 ∨
      pollingCode hz = 0x04 ∨ pollingCode hz = 0x08 := by
    unfold pollingCode
    by_cases h1 : 1000 ≤ hz % 0x10000 <;> by_cases h2 : 500 ≤ hz % 0x10000 <;>
      by_cases h3 : 250 ≤ hz % 0x10000 <;> simp [h1, h2, h3]
  have hbytes : ∀ c : Nat,
      (finalize ([0x08, 0x07, 0x00, 0x00, 0x00, 0x02, c, sub55 c]
        ++ List.replicate 8 0 ++ [0x00])).length = 17 ∧
      (finalize ([0x08, 0x07, 0x00, 0x00, 0x00, 0x02, c, sub55 c]
        ++ List.replicate 8 0 ++ [0x00]))[6]? = some c ∧
      (finalize ([0x08, 0x07, 0x00, 0x00, 0x00, 0x02, c, sub55 c]
        ++ List.replicate 8 0 ++ [0x00]))[7]? = some (sub55 c) := by
    intro c
    refine ⟨?_, ?_, ?_⟩
    · simp [finalize, List.length_set]
    · rw [finalize, List.getElem?_set_ne (by omega)]
      rw [List.getElem?_append_left (by simp)]
      simp
    · rw [finalize, List.getElem?_set_ne (by omega)]
      rw [List.getElem?_append_left (by simp)]
      simp
  refine ⟨(hbytes (pollingCode hz)).1, (hbytes (pollingCode hz)).2.1,
    (hbytes (pollingCode hz)).2.2, ?_, ?_, ?_, ?_, by decide, by decide⟩
  · intro h; unfold pollingCode; simp [h]
  · intro h; unfold pollingCode; rw [if_neg (by omega), if_pos (by omega)]
  · intro h; unfold pollingCode
    rw [if_neg (by omega), if_neg (by omega), if_pos (by omega)]
  · intro h; unfold pollingCode
    rw [if_neg (by omega), if_neg (by omega), if_neg (by omega)]

/-- Witness for c8_polling_rate at 1000 Hz: the floor-rule hypotheses are
discharged at a concrete input. -/
theorem c8_polling_rate_witness :
    pollingCode 1000 = 0x01 ∧ (build_polling_rate_packet 1000)[16]? = some 0xEF := by
  exact ⟨(c8_polling_rate 1000).2.2.2.1 (by decide),
    (c8_polling_rate 1000).2.2.2.2.2.2.2.2⟩

/-- C10. The output of build_button_mapping is not determined by `changes`
alone: for a multi-key action code (0x90, count > 1) the sub-packets depend
on the registered action string; with no registered string the builder falls
back to a single-key sub-packet for the first scancode; and since the
builder clears the registry, two consecutive calls with identical arguments
can differ. -/
theorem c10_registry_dependence :
    (build_button_mapping_st [(0, str "a+b+c")] [(0, ⟨0x90, 0x00, 0x04, 0x03⟩)]).2
        = [] ∧
    (build_button_mapping_st [(0, str "a+b+c")] [(0, ⟨0x90, 0x00, 0x04, 0x03⟩)]).1
      ≠ (build_button_mapping_st
          (build_button_mapping_st [(0, str "a+b+c")] [(0, ⟨0x90, 0x00, 0x04, 0x03⟩)]).2
          [(0, ⟨0x90, 0x00, 0x04, 0x03⟩)]).1 ∧
    (build_button_mapping [] [(0, ⟨0x90, 0x00, 0x04, 0x03⟩)]).headD []
        = kb_single 0x01 0x00 0x04 ∧
    build_button_mapping [(0, str "a+!")] [(0, ⟨0x90, 0x00, 0x04, 0x03⟩)]
        = build_button_mapping [] [(0, ⟨0x90, 0x00, 0x04, 0x03⟩)] := by
  refine ⟨rfl, by decide, by decide, by decide⟩

/-- Finalizing only touches byte 16. -/
theorem aux_finalize_getElem_lt (p : List Nat) (m : Nat) (hm : m < 16) :
    (finalize p)[m]? = p[m]? := by
  unfold finalize
  exact List.getElem?_set_ne (by omega)

/-- set_level only touches bytes off, off+1 and off+3. -/
theorem aux_set_level_ne (p : List Nat) (off w m : Nat)
    (h1 : m ≠ off) (h2 : m ≠ off + 1) (h3 : m ≠ off + 3) :
    (set_level p off w)[m]? = p[m]? := by
  unfold set_level
  cases lookup_dpi w with
  | none => rfl
  | some c =>
    obtain ⟨c0, c1, c2⟩ := c
    rw [List.getElem?_set_ne (by omega), List.getElem?_set_ne (by omega),
      List.getElem?_set_ne (by omega)]

/-- A conditional set_level also only touches bytes off, off+1 and off+3. -/
theorem aux_opt_set_level_ne (c : Prop) [Decidable c] (p : List Nat) (off w m : Nat)
    (h1 : m ≠ off) (h2 : m ≠ off + 1) (h3 : m ≠ off + 3) :
    (if c then set_level p off w else p)[m]? = p[m]? := by
  split
  · exact aux_set_level_ne p off w m h1 h2 h3
  · rfl

/-- A conditional set_level preserves length. -/
theorem aux_opt_set_level_length (c : Prop) [Decidable c] (p : List Nat) (off w : Nat) :
    (if c then set_level p off w else p).length = p.length := by
  split
  · exact aux_set_level_length p off w
  · rfl

/-- On a table hit, set_level writes the three code bytes. -/
theorem aux_set_level_some (p : List Nat) (off w c0 c1 c2 : Nat)
    (hl : lookup_dpi w = some (c0, c1, c2)) (hlen : off + 3 < p.length) :
    (set_level p off w)[off]? = some c0 ∧
    (set_level p off w)[off + 1]? = some c1 ∧
    (set_level p off w)[off + 3]? = some c2 := by
  unfold set_level
  rw [hl]
  refine ⟨?_, ?_, ?_⟩
  · rw [List.getElem?_set_ne (by omega), List.getElem?_set_ne (by omega)]
    exact List.getElem?_set_self (by omega)
  · rw [List.getElem?_set_ne (by omega)]
    rw [List.getElem?_set_self (by simp only [List.length_set]; omega)]
  · rw [List.getElem?_set_self (by simp only [List.length_set]; omega)]

/-- On a table miss, set_level is the identity. -/
theorem aux_set_level_none (p : List Nat) (off w : Nat)
    (hl : lookup_dpi w = none) : set_level p off w = p := by
  unfold set_level
  rw [hl]

/-- C4 counterexample: with levels 2 and 5 disabled (a non-contiguous
pattern) the highest-numbered disabled level is 5, whose documented byte
pair is (0x04, 0x51); the code instead derives the pair from the lowest
disabled level and emits (0x01, 0x54). -/
theorem c4_counterexample :
    ((build_dpi_packets
        ⟨fun _ => 0, fun i => decide (i.val ≠ 1 ∧ i.val ≠ 4)⟩).getD 3 [])[6]?
      = some 0x01 ∧
    ((build_dpi_packets
        ⟨fun _ => 0, fun i => decide (i.val ≠ 1 ∧ i.val ≠ 4)⟩).getD 3 [])[7]?
      = some 0x54 ∧
    ¬(((build_dpi_packets
        ⟨fun _ => 0, fun i => decide (i.val ≠ 1 ∧ i.val ≠ 4)⟩).getD 3 [])[6]?
        = some 0x04 ∧
      ((build_dpi_packets
        ⟨fun _ => 0, fun i => decide (i.val ≠ 1 ∧ i.val ≠ 4)⟩).getD 3 [])[7]?
        = some 0x51) := by
  decide

/-- C4 as amended: for every DpiSettings input the enable byte-pair of the
fourth DPI packet is derived from the LOWEST-numbered disabled level among
levels 2-5 (enablePairSpec); if all levels are disabled the template default
pair is kept; in particular disabling only level 5 yields (0x04, 0x51) and
disabling everything keeps the default (0x05, 0x50). -/
theorem c4_enable_pair (dpi : DpiSettings) :
    (((build_dpi_packets dpi).getD 3 [])[6]? = some (enablePairSpec dpi.enabled).1 ∧
     ((build_dpi_packets dpi).getD 3 [])[7]? = some (enablePairSpec dpi.enabled).2) ∧
    (((build_dpi_packets ⟨fun _ => 0, fun i => decide (i.val ≠ 4)⟩).getD 3 [])[6]?
        = some 0x04 ∧
     ((build_dpi_packets ⟨fun _ => 0, fun i => decide (i.val ≠ 4)⟩).getD 3 [])[7]?
        = some 0x51) ∧
    (((build_dpi_packets ⟨fun _ => 0, fun _ => false⟩).getD 3 [])[6]? = some 0x05 ∧
     ((build_dpi_packets ⟨fun _ => 0, fun _ => false⟩).getD 3 [])[7]? = some 0x50) := by
  have hget : ∀ w x y z : List Nat, ([w, x, y, z] ++ unknown2).getD 3 [] = z :=
    fun _ _ _ _ => rfl
  refine ⟨?_, by decide, by decide⟩
  simp only [build_dpi_packets, hget]
  cases h0 : dpi.enabled 0 <;> cases h1 : dpi.enabled 1 <;> cases h2 : dpi.enabled 2 <;>
    cases h3 : dpi.enabled 3 <;> cases h4 : dpi.enabled 4 <;>
    simp only [enablePairSpec, h0, h1, h2, h3, h4] <;> decide

/-- C7. Every configured DPI slot is applied by exact table match only: on a
table hit the three hardware-code bytes are written at the slot window
(slot 1 at packet 0 offset 6, slot 2 at packet 0 offset 10, slot 3 at packet
1 offset 6, slot 4 at packet 1 offset 10, slot 5 at packet 2 offset 6); on a
miss or for an unconfigured slot the template bytes are kept unmodified. -/
theorem c7_dpi_exact_match (dpi : DpiSettings) :
    slotOK dpi 0 0 6 ∧ slotOK dpi 1 0 10 ∧ slotOK dpi 2 1 6 ∧
    slotOK dpi 3 1 10 ∧ slotOK dpi 4 2 6 := by
  have hget0 : ∀ w x y z : List Nat, ([w, x, y, z] ++ unknown2).getD 0 [] = w :=
    fun _ _ _ _ => rfl
  have hget1 : ∀ w x y z : List Nat, ([w, x, y, z] ++ unknown2).getD 1 [] = x :=
    fun _ _ _ _ => rfl
  have hget2 : ∀ w x y z : List Nat, ([w, x, y, z] ++ unknown2).getD 2 [] = y :=
    fun _ _ _ _ => rfl
  refine ⟨⟨?_, ?_⟩, ⟨?_, ?_⟩, ⟨?_, ?_⟩, ⟨?_, ?_⟩, ⟨?_, ?_⟩⟩
  -- slot 0: packet 0, window 6/7/9; the slot-1 write at 10/11/13 is disjoint
  · intro c0 c1 c2 hv hl
    simp only [build_dpi_packets, hget0]
    refine ⟨?_, ?_, ?_⟩ <;>
      (rw [aux_finalize_getElem_lt _ _ (by omega),
        aux_opt_set_level_ne _ _ _ _ _ (by omega) (by omega) (by omega),
        if_pos hv]
       first
       | exact (aux_set_level_some _ _ _ _ _ _ hl (by decide)).1
       | exact (aux_set_level_some _ _ _ _ _ _ hl (by decide)).2.1
       | exact (aux_set_level_some _ _ _ _ _ _ hl (by decide)).2.2)
  · intro hv
    simp only [build_dpi_packets, hget0]
    refine ⟨?_, ?_, ?_⟩ <;>
      (rw [aux_finalize_getElem_lt _ _ (by omega),
        aux_opt_set_level_ne _ _ _ _ _ (by omega) (by omega) (by omega)]
       rcases hv with hv | hv
       · rw [if_neg (by omega)]
       · split
         · rw [aux_set_level_none _ _ _ hv]
         · rfl)
  -- slot 1: packet 0, window 10/11/13
  · intro c0 c1 c2 hv hl
    simp only [build_dpi_packets, hget0]
    refine ⟨?_, ?_, ?_⟩ <;>
      (rw [aux_finalize_getElem_lt _ _ (by omega), if_pos hv]
       first
       | exact (aux_set_level_some _ _ _ _ _ _ hl
           (by rw [aux_opt_set_level_length]; decide)).1
       | exact (aux_set_level_some _ _ _ _ _ _ hl
           (by rw [aux_opt_set_level_length]; decide)).2.1
       | exact (aux_set_level_some _ _ _ _ _ _ hl
           (by rw [aux_opt_set_level_length]; decide)).2.2)
  · intro hv
    simp only [build_dpi_packets, hget0]
    refine ⟨?_, ?_, ?_⟩ <;>
      (rw [aux_finalize_getElem_lt _ _ (by omega)]
       rcases hv with hv | hv
       · rw [if_neg (by omega),
           aux_opt_set_level_ne _ _ _ _ _ (by omega) (by omega) (by omega)]
       · split
         · rw [aux_set_level_none _ _ _ hv,
             aux_opt_set_level_ne _ _ _ _ _ (by omega) (by omega) (by omega)]
         · rw [aux_opt_set_level_ne _ _ _ _ _ (by omega) (by omega) (by omega)])
  -- slot 2: packet 1, window 6/7/9
  · intro c0 c1 c2 hv hl
    simp only [build_dpi_packets, hget1]
    refine ⟨?_, ?_, ?_⟩ <;>
      (rw [aux_finalize_getElem_lt _ _ (by omega),
        aux_opt_set_level_ne _ _ _ _ _ (by omega) (by omega) (by omega),
        if_pos hv]
       first
       | exact (aux_set_level_some _ _ _ _ _ _ hl (by decide)).1
       | exact (aux_set_level_some _ _ _ _ _ _ hl (by decide)).2.1
       | exact (aux_set_level_some _ _ _ _ _ _ hl (by decide)).2.2)
  · intro hv
    simp only [build_dpi_packets, hget1]
    refine ⟨?_, ?_, ?_⟩ <;>
      (rw [aux_finalize_getElem_lt _ _ (by omega),
        aux_opt_set_level_ne _ _ _ _ _ (by omega) (by omega) (by omega)]
       rcases hv with hv | hv
       · rw [if_neg (by omega)]
       · split
         · rw [aux_set_level_none _ _ _ hv]
         · rfl)
  -- slot 3: packet 1, window 10/11/13
  · intro c0 c1 c2 hv hl
    simp only [build_dpi_packets, hget1]
    refine ⟨?_, ?_, ?_⟩ <;>
      (rw [aux_finalize_getElem_lt _ _ (by omega), if_pos hv]
       first
       | exact (aux_set_level_some _ _ _ _ _ _ hl
           (by rw [aux_opt_set_level_length]; decide)).1
       | exact (aux_set_level_some _ _ _ _ _ _ hl
           (by rw [aux_opt_set_level_length]; decide)).2.1
       | exact (aux_set_level_some _ _ _ _ _ _ hl
           (by rw [aux_opt_set_level_length]; decide)).2.2)
  · intro hv
    simp only [build_dpi_packets, hget1]
    refine ⟨?_, ?_, ?_⟩ <;>
      (rw [aux_finalize_getElem_lt _ _ (by omega)]
       rcases hv with hv | hv
       · rw [if_neg (by omega),
           aux_opt_set_level_ne _ _ _ _ _ (by omega) (by omega) (by omega)]
       · split
         · rw [aux_set_level_none _ _ _ hv,
             aux_opt_set_level_ne _ _ _ _ _ (by omega) (by omega) (by omega)]
         · rw [aux_opt_set_level_ne _ _ _ _ _ (by omega) (by omega) (by omega)])
  -- slot 4: packet 2, window 6/7/9
  · intro c0 c1 c2 hv hl
    simp only [build_dpi_packets, hget2]
    refine ⟨?_, ?_, ?_⟩ <;>
      (rw [aux_finalize_getElem_lt _ _ (by omega), if_pos hv]
       first
       | exact (aux_set_level_some _ _ _ _ _ _ hl (by decide)).1
       | exact (aux_set_level_some _ _ _ _ _ _ hl (by decide)).2.1
       | exact (aux_set_level_some _ _ _ _ _ _ hl (by decide)).2.2)
  · intro hv
    simp only [build_dpi_packets, hget2]
    refine ⟨?_, ?_, ?_⟩ <;>
      (rw [aux_finalize_getElem_lt _ _ (by omega)]
       rcases hv with hv | hv
       · rw [if_neg (by omega)]
       · split
         · rw [aux_set_level_none _ _ _ hv]
         · rfl)

/-- Witness for c7_dpi_exact_match: slot 1 configured to 3200 hits the table
and gets code 26 26 09; slot 2 configured to 3300 misses and keeps the
template bytes. -/
theorem c7_dpi_exact_match_witness :
    ((build_dpi_packets ⟨fun i => if i = 0 then 3200 else if i = 1 then 3300 else 0,
        fun _ => true⟩).getD 0 [])[6]? = some 0x26 ∧
    ((build_dpi_packets ⟨fun i => if i = 0 then 3200 else if i = 1 then 3300 else 0,
        fun _ => true⟩).getD 0 [])[7]? = some 0x26 ∧
    ((build_dpi_packets ⟨fun i => if i = 0 then 3200 else if i = 1 then 3300 else 0,
        fun _ => true⟩).getD 0 [])[9]? = some 0x09 ∧
    ((build_dpi_packets ⟨fun i => if i = 0 then 3200 else if i = 1 then 3300 else 0,
        fun _ => true⟩).getD 0 [])[10]?
      = (dpi_template.getD 0 [])[10]? := by
  have h1 := (c7_dpi_exact_match
    ⟨fun i => if i = 0 then 3200 else if i = 1 then 3300 else 0, fun _ => true⟩).1.1
    0x26 0x26 0x09 (by decide) (by decide)
  have h2 := (c7_dpi_exact_match
    ⟨fun i => if i = 0 then 3200 else if i = 1 then 3300 else 0, fun _ => true⟩).2.1.2
    (Or.inr (by decide))
  have h6 : (6 : Nat) + 1 = 7 := rfl
  have h9 : (6 : Nat) + 3 = 9 := rfl
  exact ⟨h1.1, h6 ▸ h1.2.1, h9 ▸ h1.2.2, h2.1⟩

/-- Taking below a set index ignores the set. -/
theorem aux_take_set (l : List Nat) (i v n : Nat) (h : n ≤ i) :
    (l.set i v).take n = l.take n := by
  apply List.ext_getElem?
  intro m
  rw [List.getElem?_take, List.getElem?_take]
  split
  · exact List.getElem?_set_ne (by omega)
  · rfl

/-- sub55 only depends on the low byte. -/
theorem aux_sub55_mod (x : Nat) : sub55 (x % 0x10000) = sub55 x := by
  unfold sub55
  rw [Nat.mod_mod_of_dvd x (by norm_num)]

/-- C3 as amended: for every keyboard combination action whose event list
fits the two-packet layout (at most 18 event bytes, i.e. at most 3 active
modifier bits and keys combined), the builder emits exactly two sub-packets:
the first carries the event-count byte and the first up-to-9 event bytes at
the button's base address, the second is addressed at base address + 0x0A
and carries the remaining event bytes followed by the local checksum
(0x55 - (count + sum of event bytes)) mod 256. For longer event lists the
remaining bytes exceed the 17-byte packet and the C++ writes out of bounds
(see c3_counterexample). -/
theorem c3_two_subpackets (hi lo mods : Nat) (keys : List Nat)
    (hlen : (buildEvents mods keys).length ≤ 18) :
    ∃ p1 p2,
      comboSubs hi lo mods keys = [p1, p2] ∧
      p1.take 7 = [0x08, 0x07, 0x00, hi, lo, 0x0a,
        ((buildEvents mods keys).length / 3) % 256] ∧
      (p1.drop 7).take 9 = takePad 9 (buildEvents mods keys) ∧
      p2[4]? = some ((lo + 0x0a) % 256) ∧
      (p2.drop 6).take ((buildEvents mods keys).length - 9 + 1)
        = (buildEvents mods keys).drop 9
          ++ [sub55 (((buildEvents mods keys).length / 3) % 256
              + (buildEvents mods keys).sum)] := by
  set evts := buildEvents mods keys with hevts
  set cnt := (evts.length / 3) % 256 with hcnt
  set inner := sub55 ((cnt + evts.sum) % 0x10000) with hinner
  set rest := evts.drop 9 with hrest
  have hrlen : rest.length = evts.length - 9 := by
    rw [hrest, List.length_drop]
  have hrle : rest.length ≤ 9 := by omega
  refine ⟨finalize ([0x08, 0x07, 0x00, hi, lo, 0x0a, cnt] ++ takePad 9 evts ++ [0x00]),
    finalize ([0x08, 0x07, 0x00, hi, (lo + 0x0a) % 256, (rest.length + 1) % 256]
      ++ takePad 10 (rest ++ [inner]) ++ [0x00]),
    rfl, ?_, ?_, ?_, ?_⟩
  · -- the 7 header bytes of packet 1
    rw [finalize, aux_take_set _ _ _ _ (by omega), List.append_assoc]
    exact List.take_left' rfl
  · -- bytes 7..15 of packet 1 are the first 9 event bytes, zero padded
    rw [finalize, List.drop_set]
    rw [if_neg (by omega)]
    rw [aux_take_set _ _ _ _ (by omega), List.append_assoc]
    rw [List.drop_left' (show ([0x08, 0x07, 0x00, hi, lo, 0x0a, cnt] : List Nat).length
      = 7 from rfl)]
    rw [List.take_append_of_le_length (by simp [aux_takePad_length])]
    rw [List.take_of_length_le (by simp [aux_takePad_length])]
  · -- packet 2 is addressed at base + 0x0A
    rw [aux_finalize_getElem_lt _ _ (by omega)]
    rw [List.getElem?_append_left (by simp)]
    rfl
  · -- bytes 6.. of packet 2: the remaining event bytes then the local checksum
    rw [finalize, List.drop_set]
    rw [if_neg (by omega)]
    rw [aux_take_set _ _ _ _ (by omega), List.append_assoc]
    rw [List.drop_left' (show ([0x08, 0x07, 0x00, hi, (lo + 0x0a) % 256,
      (rest.length + 1) % 256] : List Nat).length = 6 from rfl)]
    have hpad : takePad 10 (rest ++ [inner])
        = (rest ++ [inner]) ++ List.replicate (10 - (rest ++ [inner]).length) 0 := by
      unfold takePad
      rw [List.take_of_length_le (by simp; omega)]
    rw [hpad, List.append_assoc]
    rw [List.take_append_of_le_length (by simp; omega)]
    rw [List.take_of_length_le (by simp; omega)]
    rw [hinner, aux_sub55_mod]

/-- Witness for c3_two_subpackets: the combination ctrl plus c (one modifier
bit, one key, 12 event bytes). -/
theorem c3_two_subpackets_witness :
    (buildEvents 0x01 [0x06]).length ≤ 18 ∧
    (∃ p1 p2,
      comboSubs 0x01 0x00 0x01 [0x06] = [p1, p2] ∧
      p1.take 7 = [0x08, 0x07, 0x00, 0x01, 0x00, 0x0a,
        ((buildEvents 0x01 [0x06]).length / 3) % 256] ∧
      (p1.drop 7).take 9 = takePad 9 (buildEvents 0x01 [0x06]) ∧
      p2[4]? = some ((0x00 + 0x0a) % 256) ∧
      (p2.drop 6).take ((buildEvents 0x01 [0x06]).length - 9 + 1)
        = (buildEvents 0x01 [0x06]).drop 9
          ++ [sub55 (((buildEvents 0x01 [0x06]).length / 3) % 256
              + (buildEvents 0x01 [0x06]).sum)]) :=
  ⟨by decide, c3_two_subpackets 0x01 0x00 0x01 [0x06] (by decide)⟩

/-- C3 counterexample: for the four-key combination a b c d the event list
is 24 bytes, 15 bytes remain after the first sub-packet, and the second
sub-packet does not carry the remaining event bytes followed by the local
checksum (the C++ writes them past the end of the 17-byte array). -/
theorem c3_counterexample :
    (((comboSubs 0x01 0x00 0x00 [0x04, 0x05, 0x06, 0x07]).getD 1 []).drop 6).take
        ((buildEvents 0x00 [0x04, 0x05, 0x06, 0x07]).length - 9 + 1)
      ≠ (buildEvents 0x00 [0x04, 0x05, 0x06, 0x07]).drop 9
        ++ [sub55 (((buildEvents 0x00 [0x04, 0x05, 0x06, 0x07]).length / 3) % 256
              + (buildEvents 0x00 [0x04, 0x05, 0x06, 0x07]).sum)] := by
  decide

/-- Lowercasing twice is lowercasing once (per byte). -/
theorem aux_lowerByte_idem (b : Nat) : lowerByte (lowerByte b) = lowerByte b := by
  unfold lowerByte
  by_cases h : 65 ≤ b ∧ b ≤ 90
  · rw [if_pos h, if_neg (by omega)]
  · rw [if_neg h, if_neg h]

/-- Lowercasing twice is lowercasing once. -/
theorem aux_to_lower_idem (s : List Nat) : to_lower (to_lower s) = to_lower s := by
  induction s with
  | nil => rfl
  | cons a t ih =>
    show lowerByte (lowerByte a) :: to_lower (to_lower t) = lowerByte a :: to_lower t
    rw [aux_lowerByte_idem, ih]

/-- The token fold stays failed once it failed. -/
theorem aux_collect_absorb (parts : List (List Nat)) :
    parts.foldl collect_step none = none := by
  induction parts with
  | nil => rfl
  | cons x xs ih => exact ih

/-- A token that is neither a modifier nor a key fails the token fold. -/
theorem aux_collect_bad (parts : List (List Nat))
    (hex : ∃ t ∈ parts, lookupTable modifier_bits t = none ∧
      lookupTable key_codes t = none) :
    collect_tokens parts = none := by
  unfold collect_tokens
  generalize some ((0 : Nat), ([] : List Nat)) = acc
  induction parts generalizing acc with
  | nil => simp at hex
  | cons x xs ih =>
    obtain ⟨t, ht, hmod, hkey⟩ := hex
    rcases List.mem_cons.1 ht with rfl | ht
    · have hstep : collect_step acc t = none := by
        cases acc with
        | none => rfl
        | some mk =>
          obtain ⟨m, k⟩ := mk
          simp only [collect_step, hmod, hkey]
      rw [List.foldl_cons, hstep]
      exact aux_collect_absorb xs
    · exact ih ⟨t, ht, hmod, hkey⟩ _

/-- C6. parse_action failure and success conditions: it is insensitive to
case; a recognized fixed literal resolves to its table entry; a well-formed
fire action with speed outside 3..255 or repeat outside 0..3 fails; a
keyboard combination containing a token that is neither a recognized
modifier nor a recognized key fails; a keyboard combination of more than
255 keys fails; and any other keyboard combination of recognized tokens
(zero or more modifiers with zero, one or many keys) succeeds. -/
theorem c6_parse_action_conditions :
    (∀ s, parse_action s = parse_action (to_lower s)) ∧
    (∀ s v, lookupTable mouse_actions (to_lower s) = some v →
      (to_lower s).take 5 ≠ str "fire:" → parse_action s = some v) ∧
    (∀ s t1 t2 sp tm, (to_lower s).take 5 = str "fire:" →
      splitNE 58 (to_lower s) = [str "fire", t1, t2] →
      stoi? t1 = some sp → stoi? t2 = some tm →
      (sp < 3 ∨ 255 < sp ∨ tm < 0 ∨ 3 < tm) → parse_action s = none) ∧
    (∀ s, (to_lower s).take 5 ≠ str "fire:" →
      lookupTable mouse_actions (to_lower s) = none →
      (∃ t ∈ splitNE 43 (to_lower s), lookupTable modifier_bits t = none ∧
        lookupTable key_codes t = none) →
      parse_action s = none) ∧
    (∀ s mods keys, (to_lower s).take 5 ≠ str "fire:" →
      lookupTable mouse_actions (to_lower s) = none →
      collect_tokens (splitNE 43 (to_lower s)) = some (mods, keys) →
      255 < keys.length → parse_action s = none) ∧
    (∀ s mods keys, (to_lower s).take 5 ≠ str "fire:" →
      lookupTable mouse_actions (to_lower s) = none →
      splitNE 43 (to_lower s) ≠ [] →
      collect_tokens (splitNE 43 (to_lower s)) = some (mods, keys) →
      keys.length ≤ 255 → ∃ ab, parse_action s = some ab) := by
  refine ⟨?_, ?_, ?_, ?_, ?_, ?_⟩
  · intro s
    simp only [parse_action, aux_to_lower_idem]
  · intro s v hm hf
    simp only [parse_action]
    rw [if_neg hf]
    simp only [hm]
  · intro s t1 t2 sp tm hf hs h1 h2 hr
    simp only [parse_action]
    rw [if_pos hf]
    simp only [hs, h1, h2]
    rw [if_neg (by omega)]
  · intro s hf hm hex
    simp only [parse_action]
    rw [if_neg hf]
    simp only [hm]
    by_cases hp : splitNE 43 (to_lower s) = []
    · rw [if_pos hp]
    · rw [if_neg hp]
      simp only [aux_collect_bad _ hex]
  · intro s mods keys hf hm hc hk
    simp only [parse_action]
    rw [if_neg hf]
    simp only [hm]
    by_cases hp : splitNE 43 (to_lower s) = []
    · rw [hp] at hc
      simp only [collect_tokens, List.foldl_nil, Option.some_inj, Prod.mk.injEq] at hc
      rw [← hc.2] at hk
      simp at hk
    · rw [if_neg hp]
      simp only [hc]
      match keys, hk with
      | a :: b :: t, hk => exact if_pos hk
  · intro s mods keys hf hm hp hc hk
    simp only [parse_action]
    rw [if_neg hf]
    simp only [hm]
    rw [if_neg hp]
    simp only [hc]
    match keys, hk with
    | [], _ => exact ⟨_, rfl⟩
    | [k], _ => exact ⟨_, rfl⟩
    | a :: b :: t, hk => exact ⟨_, if_neg (by omega)⟩

set_option maxRecDepth 16384 in
/-- Witness for c6_parse_action_conditions: concrete instances of all six
conjuncts (the fifth uses a combination of 256 copies of key a). -/
theorem c6_parse_action_conditions_witness :
    parse_action (str "LEFT") = parse_action (to_lower (str "LEFT")) ∧
    parse_action (str "LEFT") = some ⟨0x01, 0x01, 0x00, 0x53⟩ ∧
    parse_action (str "fire:2:1") = none ∧
    parse_action (str "qq+a") = none ∧
    parse_action ((List.replicate 255 [97, 43]).flatten ++ [97]) = none ∧
    (∃ ab, parse_action (str "ctrl+c") = some ab) := by
  refine ⟨c6_parse_action_conditions.1 (str "LEFT"),
    c6_parse_action_conditions.2.1 (str "LEFT") ⟨0x01, 0x01, 0x00, 0x53⟩
      (by decide) (by decide),
    c6_parse_action_conditions.2.2.1 (str "fire:2:1") (str "2") (str "1") 2 1
      (by decide) (by decide) (by decide) (by decide) (by decide),
    c6_parse_action_conditions.2.2.2.1 (str "qq+a") (by decide) (by decide)
      ⟨str "qq", by decide, by decide, by decide⟩,
    c6_parse_action_conditions.2.2.2.2.1 ((List.replicate 255 [97, 43]).flatten ++ [97])
      0 (List.replicate 256 0x04) (by decide) (by decide) (by decide) (by decide),
    c6_parse_action_conditions.2.2.2.2.2 (str "ctrl+c") 0x01 [0x06]
      (by decide) (by decide) (by decide) (by decide) (by decide)⟩

/-- getD of an in-range index is a member. -/
theorem aux_getD_mem (l : List (List Nat)) (n : Nat) (h : n < l.length) :
    l.getD n [] ∈ l := by
  rw [List.getD_eq_getElem?_getD, List.getElem?_eq_getElem h]
  exact List.getElem_mem h

/-- Multimedia sub-packets are well-formed. -/
theorem aux_good_mm_sub (hi lo e c e2 : Nat) : goodPacket (mm_sub hi lo e c e2) :=
  aux_goodPacket_finalize _ rfl

/-- Single-key sub-packets are well-formed. -/
theorem aux_good_kb_single (hi lo k : Nat) : goodPacket (kb_single hi lo k) := by
  apply aux_goodPacket_finalize
  simp only [List.length_set]
  rfl

/-- Both combination sub-packets are well-formed. -/
theorem aux_good_comboSubs (hi lo mods : Nat) (keys : List Nat) :
    ∀ p ∈ comboSubs hi lo mods keys, goodPacket p := by
  intro p hp
  simp only [comboSubs, List.mem_cons, List.not_mem_nil, or_false] at hp
  rcases hp with rfl | rfl
  · apply aux_goodPacket_finalize
    simp only [List.length_append, List.length_cons, List.length_nil, aux_takePad_length]
  · apply aux_goodPacket_finalize
    simp only [List.length_append, List.length_cons, List.length_nil, aux_takePad_length]

/-- The sub-packets of the keyboard branch are well-formed, whatever the
resolved modifier byte and key list are. -/
theorem aux_good_kb_subs (hi lo m : Nat) (ks : List Nat) (c : Prop) [Decidable c] :
    ∀ p ∈ (if c then [kb_single hi lo (ks.headD 0)] else comboSubs hi lo m ks),
      goodPacket p := by
  intro p hp
  split at hp
  · simp only [List.mem_cons, List.not_mem_nil, or_false] at hp
    rw [hp]
    exact aux_good_kb_single _ _ _
  · exact aux_good_comboSubs _ _ _ _ _ hp

/-- One build_button_mapping iteration preserves the loop invariant: 8
mapping packets of 17 bytes and only well-formed collected sub-packets. -/
theorem aux_bm_step_inv (reg : List (Nat × List Nat))
    (st : List (List Nat) × List (List Nat)) (e : Nat × ActionBytes)
    (h8 : st.1.length = 8) (hrows : ∀ q ∈ st.1, q.length = 17)
    (hsubs : ∀ p ∈ st.2, goodPacket p) :
    (bm_step reg st e).1.length = 8 ∧
    (∀ q ∈ (bm_step reg st e).1, q.length = 17) ∧
    (∀ p ∈ (bm_step reg st e).2, goodPacket p) := by
  have hrow17 : ∀ (ab : ActionBytes) (off : Nat), e.1 / 2 < st.1.length →
      ∀ q ∈ st.1.set (e.1 / 2) (write4 (st.1.getD (e.1 / 2) []) off ab),
        q.length = 17 := by
    intro ab off hlt q hq
    rcases List.mem_or_eq_of_mem_set hq with hq | rfl
    · exact hrows _ hq
    · rw [aux_write4_length]
      exact hrows _ (aux_getD_mem _ _ hlt)
  simp only [bm_step]
  by_cases h16 : 16 ≤ e.1
  · rw [if_pos h16]
    exact ⟨h8, hrows, hsubs⟩
  · rw [if_neg h16]
    by_cases hab : e.2.b0 = 0x90 ∨ e.2.b0 = 0x92
    · rw [if_pos hab]
      refine ⟨by simp [List.length_set, h8], hrow17 _ _ (by omega), ?_⟩
      intro p hp
      rcases List.mem_append.1 hp with hp | hp
      · exact hsubs _ hp
      · by_cases h92 : e.2.b0 = 0x92
        · rw [if_pos h92] at hp
          simp only [List.mem_cons, List.not_mem_nil, or_false] at hp
          rw [hp]
          exact aux_good_mm_sub _ _ _ _ _
        · rw [if_neg h92] at hp
          exact aux_good_kb_subs _ _ _ _ _ p hp
    · rw [if_neg hab]
      exact ⟨by simp [List.length_set, h8], hrow17 _ _ (by omega), hsubs⟩

/-- The build_button_mapping fold preserves the loop invariant. -/
theorem aux_bm_fold_inv (reg : List (Nat × List Nat)) :
    ∀ (cs : List (Nat × ActionBytes)) (st : List (List Nat) × List (List Nat)),
      st.1.length = 8 → (∀ q ∈ st.1, q.length = 17) → (∀ p ∈ st.2, goodPacket p) →
      (cs.foldl (bm_step reg) st).1.length = 8 ∧
      (∀ q ∈ (cs.foldl (bm_step reg) st).1, q.length = 17) ∧
      (∀ p ∈ (cs.foldl (bm_step reg) st).2, goodPacket p) := by
  intro cs
  induction cs with
  | nil => intro st h1 h2 h3; exact ⟨h1, h2, h3⟩
  | cons e tl ih =>
    intro st h1 h2 h3
    rw [List.foldl_cons]
    have h := aux_bm_step_inv reg st e h1 h2 h3
    exact ih _ h.1 h.2.1 h.2.2

/-- Every packet build_button_mapping returns is well-formed. -/
theorem aux_bm_good (reg : List (Nat × List Nat)) (changes : List (Nat × ActionBytes)) :
    ∀ p ∈ build_button_mapping reg changes, goodPacket p := by
  intro p hp
  simp only [build_button_mapping] at hp
  have h := aux_bm_fold_inv reg (normChanges changes) (default_button_mapping, [])
    (by decide) (by decide) (by simp)
  rcases List.mem_append.1 hp with hp | hp
  · exact h.2.2 _ hp
  · rcases List.mem_map.1 hp with ⟨q, hq, rfl⟩
    exact aux_goodPacket_finalize q (h.2.1 q hq)

/-- The fourth DPI packet keeps its 17 bytes whether or not the enable pair
is written. -/
theorem aux_ite_set2_length (c : Prop) [Decidable c] (x y : Nat) :
    (if c then dpi_template.getD 3 []
     else ((dpi_template.getD 3 []).set 6 x).set 7 y).length = 17 := by
  split
  · rfl
  · simp only [List.length_set]
    rfl

/-- Every packet build_dpi_packets returns is well-formed. -/
theorem aux_dpi_good (dpi : DpiSettings) :
    ∀ p ∈ build_dpi_packets dpi, goodPacket p := by
  intro p hp
  simp only [build_dpi_packets, List.mem_append, List.mem_cons,
    List.not_mem_nil, or_false] at hp
  rcases hp with (rfl | rfl | rfl | rfl) | hp
  · apply aux_goodPacket_finalize
    rw [aux_opt_set_level_length, aux_opt_set_level_length]
    rfl
  · apply aux_goodPacket_finalize
    rw [aux_opt_set_level_length, aux_opt_set_level_length]
    rfl
  · apply aux_goodPacket_finalize
    rw [aux_opt_set_level_length]
    rfl
  · apply aux_goodPacket_finalize
    exact aux_ite_set2_length _ _ _
  · simp only [unknown2, List.mem_cons, List.not_mem_nil, or_false] at hp
    rcases hp with rfl | rfl | rfl <;> decide

/-- Every packet build_led_packets returns is well-formed. -/
theorem aux_led_good (mode : LedMode) (color brightness speed : Nat) :
    ∀ p ∈ build_led_packets mode color brightness speed, goodPacket p := by
  intro p hp
  cases mode <;>
    simp only [build_led_packets, List.mem_cons, List.not_mem_nil, or_false] at hp
  · rw [hp]; decide
  · rw [hp]
    apply aux_goodPacket_finalize
    simp only [List.length_set]
    rfl
  · rcases hp with rfl | rfl <;>
      (apply aux_goodPacket_finalize; simp only [List.length_set]; rfl)
  · rcases hp with rfl | rfl <;> decide

/-- The polling rate packet is well-formed. -/
theorem aux_poll_good (hz : Nat) : goodPacket (build_polling_rate_packet hz) := by
  apply aux_goodPacket_finalize
  simp only [List.length_append, List.length_cons, List.length_nil, List.length_replicate]

/-- C1. For every packet of any builder output, on any input, the sum of all
17 bytes is congruent to 0x55 modulo 256, and byte 16 equals compute_checksum
of the packet, i.e. (0x55 - sum of bytes 0..15) mod 256. -/
theorem c1_checksum_invariant (reg : List (Nat × List Nat))
    (changes : List (Nat × ActionBytes)) (dpi : DpiSettings) (mode : LedMode)
    (color brightness speed hz : Nat) (p : List Nat)
    (hp : p ∈ build_button_mapping reg changes ∨ p ∈ build_dpi_packets dpi ∨
      p ∈ build_led_packets mode color brightness speed ∨
      p = build_polling_rate_packet hz) :
    p.length = 17 ∧ p.sum % 256 = 0x55 ∧ p[16]? = some (compute_checksum p) := by
  rcases hp with hp | hp | hp | rfl
  · exact aux_bm_good reg changes p hp
  · exact aux_dpi_good dpi p hp
  · exact aux_led_good mode color brightness speed p hp
  · exact aux_poll_good hz

/-- Witness for c1_checksum_invariant at the 1000 Hz polling packet. -/
theorem c1_checksum_invariant_witness :
    (build_polling_rate_packet 1000).length = 17 ∧
    (build_polling_rate_packet 1000).sum % 256 = 0x55 ∧
    (build_polling_rate_packet 1000)[16]?
      = some (compute_checksum (build_polling_rate_packet 1000)) :=
  c1_checksum_invariant [] [] ⟨fun _ => 0, fun _ => true⟩ .Off 0 0 0 1000 _
    (Or.inr (Or.inr (Or.inr rfl)))

end M913
